import Mathlib

/-!
Verification of the Solana on-chain payment verification and crediting pipeline
(`server/services/solana.ts` and its route layer `server/routes/solana-billing.ts`).

The embedding models the SQLite tables touched by the pipeline as lists of rows,
each SQL statement as a pure function on that state, and the Solana RPC
connection as an oracle mapping the polling attempt index to the responses of
`getSignatureStatus` / `getTransaction` (with `Except` capturing a thrown
RPC/network error).  Timestamps are milliseconds as natural numbers; lamport
amounts are integers; SOL amounts and the USD rate are rationals.
-/

namespace Solana

/-- Row of the `solana_transactions` table (credit-purchase payment intents). -/
structure TxRow where
  id : String
  user_id : String
  wallet_address : String
  transaction_signature : String
  amount_lamports : Int
  amount_sol : Rat
  credits_purchased : Int
  status : String
  network : String
  verified_at : Option Nat
  created_at : Nat
deriving DecidableEq, Repr

/-- Row of the `solana_subscription_transactions` table (subscription-purchase intents). -/
structure SubTxRow where
  id : String
  user_id : String
  product_id : String
  wallet_address : String
  transaction_signature : String
  amount_lamports : Int
  amount_sol : Rat
  status : String
  network : String
  verified_at : Option Nat
  subscription_id : Option String
  created_at : Nat
deriving DecidableEq, Repr

/-- Row of the `user_subscriptions` table. -/
structure SubscriptionRow where
  id : String
  user_id : String
  product_id : String
  starts_at : Nat
  ends_at : Option Nat
  status : String
  current_period_start : Nat
  current_period_end : Nat
deriving DecidableEq, Repr

/-- The fields of a `subscription_products` row the verification pipeline reads. -/
structure ProductRow where
  id : String
  bonus_credits : Int
deriving DecidableEq, Repr

/-- One signed delta of the append-only credit ledger (`addCredits` appends these). -/
structure CreditEntry where
  user_id : String
  amount : Int
  kind : String
  description : String
deriving DecidableEq, Repr

/-- Row of the `revenue_events` table. -/
structure RevenueEvent where
  id : String
  user_id : String
  event_type : String
  amount_cents : Int
  description : String
deriving DecidableEq, Repr

/-- The persistent state touched by the payment pipeline. -/
structure Db where
  solana_transactions : List TxRow
  solana_subscription_transactions : List SubTxRow
  user_subscriptions : List SubscriptionRow
  subscription_products : List ProductRow
  credit_ledger : List CreditEntry
  revenue_events : List RevenueEvent
deriving DecidableEq, Repr

/-- Result of the Chain Client's lightweight `getSignatureStatus` call
(`status.value?.err` collapsed to a flag). -/
structure SigStatus where
  err : Bool
deriving DecidableEq, Repr

/-- A transaction record returned by `getTransaction`: execution error flag
(`tx.meta?.err`), account keys as base58 strings, and the pre/post lamport
balances indexed like the account keys. -/
structure ChainTx where
  err : Bool
  accountKeys : List String
  preBalances : List Int
  postBalances : List Int
deriving DecidableEq, Repr

/-- The RPC connection as an oracle over polling attempt indices.  `Except Unit`
models a thrown RPC/network error, which the source's `catch` turns into an
internal error result. -/
structure Chain where
  getSignatureStatus : Nat → Except Unit SigStatus
  getTransactionConfirmed : Nat → Except Unit (Option ChainTx)
  getTransactionFinalized : Nat → Except Unit (Option ChainTx)

/-- `maxRetries` in both verification functions: 30 attempts. -/
def maxRetries : Nat := 30

/-- `LAMPORTS_PER_SOL`. -/
def lamportsPerSol : Rat := 1000000000

/-- Outcome of the bounded polling loop shared by both verification functions. -/
inductive PollResult where
  | rpcError
  | chainFailure
  | done (tx : Option ChainTx)
deriving DecidableEq, Repr

/-- The polling loop of `verifyAndCreditTransaction` / `verifyAndCreateSubscription`:
`attempt` is the current iteration index, `remaining` the iterations left.  Each
iteration checks the signature status (an on-chain error aborts the whole call),
fetches the transaction at `confirmed` commitment and, when found, re-fetches at
`finalized` commitment, breaking out only on a finalized record.  When the
iterations are exhausted the loop falls through with whatever the last
`confirmed`-commitment fetch returned (the source keeps that value in `tx`). -/
def pollLoop (chain : Chain) (attempt remaining : Nat) : PollResult :=
  match remaining with
  | 0 => .done none
  | r + 1 =>
    match chain.getSignatureStatus attempt with
    | .error _ => .rpcError
    | .ok st =>
      if st.err then .chainFailure
      else
        match chain.getTransactionConfirmed attempt with
        | .error _ => .rpcError
        | .ok txOpt =>
          match txOpt with
          | some _ =>
            match chain.getTransactionFinalized attempt with
            | .error _ => .rpcError
            | .ok (some ftx) => .done (some ftx)
            | .ok none =>
              if r = 0 then .done txOpt else pollLoop chain (attempt + 1) r
          | none =>
            if r = 0 then .done none else pollLoop chain (attempt + 1) r

/-- Outcome of the external SOL/USD rate fetch in `getSolUsdPrice`: either the
fetch threw (network error or timeout), or it produced a parsed response whose
`solana.usd` field may be absent. -/
inductive FetchOutcome where
  | fail
  | ok (usd : Option Rat)
deriving DecidableEq, Repr

/-- `getSolUsdPrice`: returns `data.solana?.usd || 250`, falling back to 250 on
any thrown error, a missing field, or a falsy (zero) value. -/
def getSolUsdPrice (f : FetchOutcome) : Rat :=
  match f with
  | .fail => 250
  | .ok none => 250
  | .ok (some v) => if v = 0 then 250 else v

/-- JavaScript `Math.round`: round half toward positive infinity. -/
def jsRound (q : Rat) : Int := ⌊q + 1 / 2⌋

/-- The typed error taxonomy of the verification pipeline; `errorMessage` maps
each constructor to the string the source returns. -/
inductive VerifyError where
  | notConfigured
  | notFound
  | alreadyProcessed
  | replayDetected
  | internalError
  | onChainFailure
  | notConfirmed
  | recipientMismatch
  | amountMismatch
deriving DecidableEq, Repr

/-- The error string the source returns for each error outcome. -/
def errorMessage : VerifyError → String
  | .notConfigured => "Solana payments not configured"
  | .notFound => "Payment not found"
  | .alreadyProcessed => "Payment already processed"
  | .replayDetected => "Transaction signature already used"
  | .internalError => "Failed to verify transaction"
  | .onChainFailure => "Transaction failed on chain"
  | .notConfirmed => "Transaction not found or not confirmed. Please wait and try again."
  | .recipientMismatch => "Treasury wallet not found in transaction"
  | .amountMismatch => "Insufficient amount received"

/-- The `{success, error?, payout?}` result shape: `ok` carries the payout
(credits added, or the new subscription id). -/
inductive VerifyOutcome (α : Type) where
  | ok (payout : α)
  | err (e : VerifyError)
deriving DecidableEq, Repr

/-- Environment configuration: `SOLANA_TREASURY_WALLET` (empty means the
subsystem is disabled). -/
structure Config where
  treasuryWallet : String
deriving DecidableEq, Repr

/-- `isSolanaConfigured`. -/
def isSolanaConfigured (cfg : Config) : Bool := !(cfg.treasuryWallet == "")

/-- Modelled from the spec: `addCredits` lives in the repository's `usage`
module, which is not among the provided sources.  Per the spec the account
credit balance is "derived (sum over an append-only ledger of signed credit
deltas `{userId, amount, reason, createdAt}`)", so `addCredits` appends one
signed delta entry for the user. -/
def addCredits (db : Db) (userId : String) (amount : Int) (kind description : String) : Db :=
  { db with credit_ledger := db.credit_ledger ++ [⟨userId, amount, kind, description⟩] }

/-- The ledger write finalizing a credit-purchase intent:
`UPDATE solana_transactions SET transaction_signature = ?, status = 'completed',
verified_at = datetime('now') WHERE id = ?`. -/
def finalizeCreditIntent (db : Db) (paymentId signature : String) (now : Nat) : Db :=
  { db with solana_transactions :=
      db.solana_transactions.map fun r =>
        if r.id == paymentId then
          { r with transaction_signature := signature, status := "completed",
                   verified_at := some now }
        else r }

/-- The ledger write finalizing a subscription-purchase intent:
`UPDATE solana_subscription_transactions SET transaction_signature = ?,
status = 'completed', verified_at = datetime('now'), subscription_id = ?
WHERE id = ?`. -/
def finalizeSubscriptionIntent (db : Db) (paymentId signature subscriptionId : String)
    (now : Nat) : Db :=
  { db with solana_subscription_transactions :=
      db.solana_subscription_transactions.map fun r =>
        if r.id == paymentId then
          { r with transaction_signature := signature, status := "completed",
                   verified_at := some now, subscription_id := some subscriptionId }
        else r }

/-- The SQL condition `ends_at IS NULL OR ends_at > datetime('now')`. -/
def endsAfter (endsAt : Option Nat) (now : Nat) : Bool :=
  match endsAt with
  | none => true
  | some t => now < t

/-- `UPDATE user_subscriptions SET ends_at = datetime('now') WHERE user_id = ?
AND (ends_at IS NULL OR ends_at > datetime('now'))`. -/
def endOpenSubscriptions (db : Db) (userId : String) (now : Nat) : Db :=
  { db with user_subscriptions :=
      db.user_subscriptions.map fun s =>
        if s.user_id == userId && endsAfter s.ends_at now then
          { s with ends_at := some now }
        else s }

/-- `INSERT INTO user_subscriptions ... VALUES (?, ?, ?, ?, ?, 'active', ?, ?)`. -/
def insertSubscription (db : Db) (subscriptionId userId productId : String)
    (startsAt endsAt : Nat) : Db :=
  { db with user_subscriptions := db.user_subscriptions ++
      [⟨subscriptionId, userId, productId, startsAt, some endsAt, "active", startsAt, endsAt⟩] }

/-- `INSERT INTO revenue_events (id, user_id, event_type, amount_cents, description)`. -/
def insertRevenueEvent (db : Db) (id userId eventType : String) (amountCents : Int)
    (description : String) : Db :=
  { db with revenue_events := db.revenue_events ++
      [⟨id, userId, eventType, amountCents, description⟩] }

/-- `verifyAndCreditTransaction(paymentId, signature, userId)`.  Besides the
source's three arguments the model takes the configuration, the RPC oracle, the
rate-fetch outcome, the current time, the fresh UUID the source draws for the
revenue event, and the database state; it returns the result together with the
new state. -/
def verifyAndCreditTransaction (cfg : Config) (chain : Chain) (fetch : FetchOutcome)
    (now : Nat) (revenueId : String) (db : Db) (paymentId signature userId : String) :
    VerifyOutcome Int × Db :=
  if cfg.treasuryWallet == "" then (.err .notConfigured, db)
  else
    match db.solana_transactions.find? fun r => r.id == paymentId && r.user_id == userId with
    | none => (.err .notFound, db)
    | some pending =>
      if pending.status == "completed" then (.err .alreadyProcessed, db)
      else
        match db.solana_transactions.find?
            (fun r => r.transaction_signature == signature && r.id != paymentId) with
        | some _ => (.err .replayDetected, db)
        | none =>
          match pollLoop chain 0 maxRetries with
          | .rpcError => (.err .internalError, db)
          | .chainFailure => (.err .onChainFailure, db)
          | .done none => (.err .notConfirmed, db)
          | .done (some tx) =>
            if tx.err then (.err .onChainFailure, db)
            else
              match tx.accountKeys.findIdx? fun k => k == cfg.treasuryWallet with
              | none => (.err .recipientMismatch, db)
              | some treasuryIndex =>
                let preBalance := tx.preBalances.getD treasuryIndex 0
                let postBalance := tx.postBalances.getD treasuryIndex 0
                let received := postBalance - preBalance
                let expectedAmount := pending.amount_lamports
                let tolerance : Rat := max ((expectedAmount : Rat) * (1 / 100)) 1000
                if (received : Rat) < (expectedAmount : Rat) - tolerance then
                  (.err .amountMismatch, db)
                else
                  let db1 := finalizeCreditIntent db paymentId signature now
                  let db2 := addCredits db1 userId pending.credits_purchased "purchased"
                    ("SOL payment - " ++ toString pending.credits_purchased ++ " credits")
                  let amountSol : Rat := (pending.amount_lamports : Rat) / lamportsPerSol
                  let usdCents := jsRound (amountSol * getSolUsdPrice fetch * 100)
                  let db3 := insertRevenueEvent db2 revenueId userId "credit_purchase" usdCents
                    ("SOL payment: " ++ toString amountSol ++ " SOL")
                  (.ok pending.credits_purchased, db3)

/-- Milliseconds in 30 days: `30 * 24 * 60 * 60 * 1000`. -/
def thirtyDaysMs : Nat := 30 * 24 * 60 * 60 * 1000

/-- `verifyAndCreateSubscription(paymentId, signature, userId)`.  Takes the same
extra model inputs as `verifyAndCreditTransaction`, plus the fresh UUID drawn
for the new subscription row. -/
def verifyAndCreateSubscription (cfg : Config) (chain : Chain) (fetch : FetchOutcome)
    (now : Nat) (subscriptionId revenueId : String) (db : Db)
    (paymentId signature userId : String) : VerifyOutcome String × Db :=
  if cfg.treasuryWallet == "" then (.err .notConfigured, db)
  else
    match db.solana_subscription_transactions.find?
        (fun r => r.id == paymentId && r.user_id == userId) with
    | none => (.err .notFound, db)
    | some pending =>
      if pending.status == "completed" then (.err .alreadyProcessed, db)
      else
        match db.solana_subscription_transactions.find?
            (fun r => r.transaction_signature == signature && r.id != paymentId) with
        | some _ => (.err .replayDetected, db)
        | none =>
          match pollLoop chain 0 maxRetries with
          | .rpcError => (.err .internalError, db)
          | .chainFailure => (.err .onChainFailure, db)
          | .done none => (.err .notConfirmed, db)
          | .done (some tx) =>
            if tx.err then (.err .onChainFailure, db)
            else
              match tx.accountKeys.findIdx? fun k => k == cfg.treasuryWallet with
              | none => (.err .recipientMismatch, db)
              | some treasuryIndex =>
                let preBalance := tx.preBalances.getD treasuryIndex 0
                let postBalance := tx.postBalances.getD treasuryIndex 0
                let received := postBalance - preBalance
                let expectedAmount := pending.amount_lamports
                let tolerance : Rat := max ((expectedAmount : Rat) * (1 / 100)) 1000
                if (received : Rat) < (expectedAmount : Rat) - tolerance then
                  (.err .amountMismatch, db)
                else
                  let db1 := endOpenSubscriptions db userId now
                  let db2 := insertSubscription db1 subscriptionId userId pending.product_id
                    now (now + thirtyDaysMs)
                  let db3 :=
                    match db2.subscription_products.find? fun p => p.id == pending.product_id with
                    | some product =>
                      if 0 < product.bonus_credits then
                        addCredits db2 userId product.bonus_credits "bonus"
                          "Subscription welcome bonus (SOL)"
                      else db2
                    | none => db2
                  let db4 := finalizeSubscriptionIntent db3 paymentId signature subscriptionId now
                  let amountSol : Rat := (pending.amount_lamports : Rat) / lamportsPerSol
                  let usdCents := jsRound (amountSol * getSolUsdPrice fetch * 100)
                  let db5 := insertRevenueEvent db4 revenueId userId "sol_subscription" usdCents
                    ("SOL subscription: " ++ toString amountSol ++ " SOL")
                  (.ok subscriptionId, db5)

/-- The default `limit` parameter of `getUserTransactions`. -/
def defaultTransactionLimit : Nat := 20

/-- `getUserTransactions(userId, limit = 20)`: completed transactions of the
user, most recent first (`ORDER BY created_at DESC`), at most `limit` rows. -/
def getUserTransactions (db : Db) (userId : String) (limit : Nat) : List TxRow :=
  (((db.solana_transactions.filter fun r => r.user_id == userId && r.status == "completed").mergeSort
      fun a b => b.created_at ≤ a.created_at).take limit)

end Solana

namespace Solana

/-! ### Concrete fixtures used by witnesses and counterexamples -/

/-- A configuration with the treasury wallet set. -/
def cfg0 : Config := ⟨"TREAS"⟩

/-- An RPC oracle whose every attempt immediately yields a successful, finalized
transaction paying 1000000 lamports to the treasury. -/
def chainOk : Chain :=
  { getSignatureStatus := fun _ => .ok ⟨false⟩
    getTransactionConfirmed := fun _ => .ok (some ⟨false, ["TREAS"], [0], [1000000]⟩)
    getTransactionFinalized := fun _ => .ok (some ⟨false, ["TREAS"], [0], [1000000]⟩) }

/-- A completed credit-purchase intent carrying the real chain signature "SIGX". -/
def txA : TxRow :=
  ⟨"a", "u1", "W1", "SIGX", 1000000, 1, 50, "completed", "mainnet-beta", some 1, 1⟩

/-- A pending credit-purchase intent of the same user, still with its placeholder. -/
def txP : TxRow :=
  ⟨"p", "u1", "W1", "pending_p", 1000000, 1, 50, "pending", "mainnet-beta", none, 3⟩

/-- A pending subscription-purchase intent of user "u2". -/
def subB : SubTxRow :=
  ⟨"b", "u2", "prod1", "W2", "pending_b", 1000000, 1, "pending", "mainnet-beta", none, none, 2⟩

/-- A database where "SIGX" is already attached to the completed credit intent
`txA`, a second credit intent and a subscription intent are still pending. -/
def db0 : Db := ⟨[txA, txP], [subB], [], [⟨"prod1", 0⟩], [], []⟩

/-! ### Helper lemmas -/

/-- Every run of `verifyAndCreditTransaction` either leaves the state unchanged
or reports success. -/
theorem creditTx_cases (cfg : Config) (chain : Chain) (fetch : FetchOutcome) (now : Nat)
    (rid : String) (db : Db) (pid sig uid : String) :
    (verifyAndCreditTransaction cfg chain fetch now rid db pid sig uid).2 = db ∨
    ∃ c, (verifyAndCreditTransaction cfg chain fetch now rid db pid sig uid).1 = .ok c := by
  unfold verifyAndCreditTransaction
  repeat' split
  all_goals try simp
  all_goals split
  all_goals simp

/-- Every run of `verifyAndCreateSubscription` either leaves the state unchanged
or reports success. -/
theorem subTx_cases (cfg : Config) (chain : Chain) (fetch : FetchOutcome) (now : Nat)
    (sid rid : String) (db : Db) (pid sig uid : String) :
    (verifyAndCreateSubscription cfg chain fetch now sid rid db pid sig uid).2 = db ∨
    ∃ s, (verifyAndCreateSubscription cfg chain fetch now sid rid db pid sig uid).1 = .ok s := by
  unfold verifyAndCreateSubscription
  repeat' split
  all_goals try simp
  all_goals split
  all_goals simp

/-- The result of `verifyAndCreditTransaction` does not depend on the outcome of
the SOL/USD rate fetch. -/
theorem creditTx_fetch_indep (cfg : Config) (chain : Chain) (now : Nat) (rid : String) (db : Db)
    (pid sig uid : String) (f f' : FetchOutcome) :
    (verifyAndCreditTransaction cfg chain f now rid db pid sig uid).1 =
      (verifyAndCreditTransaction cfg chain f' now rid db pid sig uid).1 := by
  unfold verifyAndCreditTransaction
  repeat' split
  all_goals try rfl
  all_goals dsimp only
  all_goals split
  all_goals rfl

/-- The result of `verifyAndCreateSubscription` does not depend on the outcome
of the SOL/USD rate fetch. -/
theorem subTx_fetch_indep (cfg : Config) (chain : Chain) (now : Nat) (sid rid : String) (db : Db)
    (pid sig uid : String) (f f' : FetchOutcome) :
    (verifyAndCreateSubscription cfg chain f now sid rid db pid sig uid).1 =
      (verifyAndCreateSubscription cfg chain f' now sid rid db pid sig uid).1 := by
  unfold verifyAndCreateSubscription
  repeat' split
  all_goals try rfl
  all_goals dsimp only
  all_goals repeat' split
  all_goals rfl

/-- C9: the price oracle `getSolUsdPrice` is total and never propagates a
failure: on a thrown fetch or a missing `solana.usd` field it returns the
hardcoded fallback rate 250, and the success/failure outcome of both verify
functions is independent of the fetch outcome. -/
theorem price_oracle_fallback :
    (∀ f : FetchOutcome, f = .fail ∨ f = .ok none → getSolUsdPrice f = 250) ∧
    (∀ (cfg : Config) (chain : Chain) (now : Nat) (rid : String) (db : Db)
      (pid sig uid : String) (f f' : FetchOutcome),
      (verifyAndCreditTransaction cfg chain f now rid db pid sig uid).1 =
        (verifyAndCreditTransaction cfg chain f' now rid db pid sig uid).1) ∧
    (∀ (cfg : Config) (chain : Chain) (now : Nat) (sid rid : String) (db : Db)
      (pid sig uid : String) (f f' : FetchOutcome),
      (verifyAndCreateSubscription cfg chain f now sid rid db pid sig uid).1 =
        (verifyAndCreateSubscription cfg chain f' now sid rid db pid sig uid).1) := by
  refine ⟨?_, creditTx_fetch_indep, subTx_fetch_indep⟩
  rintro f (rfl | rfl) <;> rfl

/-- Witness for C9 at the concrete failing fetch outcome. -/
theorem price_oracle_fallback_witness : getSolUsdPrice .fail = 250 :=
  price_oracle_fallback.1 .fail (Or.inl rfl)

/-- C5: whenever either verify function returns an error outcome, the state is
completely unchanged: no intent is finalized and no credit-ledger entry,
subscription row or revenue event is written by that call. -/
theorem errors_leave_state_unchanged :
    (∀ (cfg : Config) (chain : Chain) (fetch : FetchOutcome) (now : Nat) (rid : String)
      (db : Db) (pid sig uid : String) (e : VerifyError),
      (verifyAndCreditTransaction cfg chain fetch now rid db pid sig uid).1 = .err e →
      (verifyAndCreditTransaction cfg chain fetch now rid db pid sig uid).2 = db) ∧
    (∀ (cfg : Config) (chain : Chain) (fetch : FetchOutcome) (now : Nat) (sid rid : String)
      (db : Db) (pid sig uid : String) (e : VerifyError),
      (verifyAndCreateSubscription cfg chain fetch now sid rid db pid sig uid).1 = .err e →
      (verifyAndCreateSubscription cfg chain fetch now sid rid db pid sig uid).2 = db) := by
  constructor
  · intro cfg chain fetch now rid db pid sig uid e he
    rcases creditTx_cases cfg chain fetch now rid db pid sig uid with h | ⟨c, hc⟩
    · exact h
    · rw [he] at hc; cases hc
  · intro cfg chain fetch now sid rid db pid sig uid e he
    rcases subTx_cases cfg chain fetch now sid rid db pid sig uid with h | ⟨s, hs⟩
    · exact h
    · rw [he] at hs; cases hs

/-- Witness for C5: a not-configured call errors and leaves the state intact. -/
theorem errors_leave_state_unchanged_witness :
    (verifyAndCreditTransaction ⟨""⟩ chainOk .fail 0 "r" db0 "a" "SIGX" "u1").2 = db0 :=
  errors_leave_state_unchanged.1 ⟨""⟩ chainOk .fail 0 "r" db0 "a" "SIGX" "u1"
    .notConfigured rfl

theorem creditTx_not_configured (cfg : Config) (chain : Chain) (fetch : FetchOutcome) (now : Nat)
    (rid : String) (db : Db) (pid sig uid : String)
    (hc : (cfg.treasuryWallet == "") = true) :
    verifyAndCreditTransaction cfg chain fetch now rid db pid sig uid =
      (.err .notConfigured, db) := by
  unfold verifyAndCreditTransaction
  simp [hc]

theorem creditTx_not_found (cfg : Config) (chain : Chain) (fetch : FetchOutcome) (now : Nat)
    (rid : String) (db : Db) (pid sig uid : String)
    (hc : (cfg.treasuryWallet == "") = false)
    (hf : db.solana_transactions.find? (fun r => r.id == pid && r.user_id == uid) = none) :
    verifyAndCreditTransaction cfg chain fetch now rid db pid sig uid = (.err .notFound, db) := by
  unfold verifyAndCreditTransaction
  simp [hc, hf]

theorem creditTx_already_processed (cfg : Config) (chain : Chain) (fetch : FetchOutcome)
    (now : Nat) (rid : String) (db : Db) (pid sig uid : String) (pending : TxRow)
    (hc : (cfg.treasuryWallet == "") = false)
    (hfind : db.solana_transactions.find? (fun r => r.id == pid && r.user_id == uid) =
      some pending)
    (hst : (pending.status == "completed") = true) :
    verifyAndCreditTransaction cfg chain fetch now rid db pid sig uid =
      (.err .alreadyProcessed, db) := by
  unfold verifyAndCreditTransaction
  simp [hc, hfind, hst]

theorem creditTx_ok_shape (cfg : Config) (chain : Chain) (fetch : FetchOutcome) (now : Nat)
    (rid : String) (db : Db) (pid sig uid : String) (pending : TxRow)
    (hc : (cfg.treasuryWallet == "") = false)
    (hfind : db.solana_transactions.find? (fun r => r.id == pid && r.user_id == uid) =
      some pending)
    (hst : (pending.status == "completed") = false) :
    (∃ e, verifyAndCreditTransaction cfg chain fetch now rid db pid sig uid = (.err e, db)) ∨
    ((verifyAndCreditTransaction cfg chain fetch now rid db pid sig uid).1 =
        .ok pending.credits_purchased ∧
      (verifyAndCreditTransaction cfg chain fetch now rid db pid sig uid).2.solana_transactions =
        (finalizeCreditIntent db pid sig now).solana_transactions) := by
  unfold verifyAndCreditTransaction
  simp only [hc, hfind, hst]
  repeat' split
  all_goals try (exact Or.inl ⟨_, rfl⟩)
  all_goals dsimp only
  all_goals exact Or.inr ⟨rfl, by simp [addCredits, insertRevenueEvent]⟩

theorem subTx_not_configured (cfg : Config) (chain : Chain) (fetch : FetchOutcome) (now : Nat)
    (sid rid : String) (db : Db) (pid sig uid : String)
    (hc : (cfg.treasuryWallet == "") = true) :
    verifyAndCreateSubscription cfg chain fetch now sid rid db pid sig uid =
      (.err .notConfigured, db) := by
  unfold verifyAndCreateSubscription
  simp [hc]

theorem subTx_not_found (cfg : Config) (chain : Chain) (fetch : FetchOutcome) (now : Nat)
    (sid rid : String) (db : Db) (pid sig uid : String)
    (hc : (cfg.treasuryWallet == "") = false)
    (hf : db.solana_subscription_transactions.find?
      (fun r => r.id == pid && r.user_id == uid) = none) :
    verifyAndCreateSubscription cfg chain fetch now sid rid db pid sig uid =
      (.err .notFound, db) := by
  unfold verifyAndCreateSubscription
  simp [hc, hf]

theorem subTx_already_processed (cfg : Config) (chain : Chain) (fetch : FetchOutcome)
    (now : Nat) (sid rid : String) (db : Db) (pid sig uid : String) (pending : SubTxRow)
    (hc : (cfg.treasuryWallet == "") = false)
    (hfind : db.solana_subscription_transactions.find?
      (fun r => r.id == pid && r.user_id == uid) = some pending)
    (hst : (pending.status == "completed") = true) :
    verifyAndCreateSubscription cfg chain fetch now sid rid db pid sig uid =
      (.err .alreadyProcessed, db) := by
  unfold verifyAndCreateSubscription
  simp [hc, hfind, hst]

theorem subTx_ok_shape (cfg : Config) (chain : Chain) (fetch : FetchOutcome) (now : Nat)
    (sid rid : String) (db : Db) (pid sig uid : String) (pending : SubTxRow)
    (hc : (cfg.treasuryWallet == "") = false)
    (hfind : db.solana_subscription_transactions.find?
      (fun r => r.id == pid && r.user_id == uid) = some pending)
    (hst : (pending.status == "completed") = false) :
    (∃ e, verifyAndCreateSubscription cfg chain fetch now sid rid db pid sig uid =
      (.err e, db)) ∨
    ((verifyAndCreateSubscription cfg chain fetch now sid rid db pid sig uid).1 = .ok sid ∧
      (verifyAndCreateSubscription cfg chain fetch now sid rid db pid sig
          uid).2.solana_subscription_transactions =
        (finalizeSubscriptionIntent db pid sig sid now).solana_subscription_transactions ∧
      (verifyAndCreateSubscription cfg chain fetch now sid rid db pid sig
          uid).2.user_subscriptions =
        (endOpenSubscriptions db uid now).user_subscriptions ++
          [⟨sid, uid, pending.product_id, now, some (now + thirtyDaysMs), "active", now,
            now + thirtyDaysMs⟩]) := by
  unfold verifyAndCreateSubscription
  simp only [hc, hfind, hst]
  repeat' split
  all_goals try (exact Or.inl ⟨_, rfl⟩)
  all_goals dsimp only
  all_goals refine Or.inr ⟨rfl, ?_, ?_⟩
  all_goals simp [finalizeSubscriptionIntent, insertRevenueEvent, addCredits,
    endOpenSubscriptions, insertSubscription]

theorem find?_map_of_pred_comm {α : Type} (f : α → α) (p : α → Bool)
    (hp : ∀ x, p (f x) = p x) : ∀ l : List α, (l.map f).find? p = (l.find? p).map f := by
  intro l
  induction l with
  | nil => rfl
  | cons x xs ih =>
    cases hpx : p x with
    | true =>
      rw [List.map_cons, List.find?_cons_of_pos _ (by rw [hp x]; exact hpx),
        List.find?_cons_of_pos _ hpx, Option.map_some']
    | false =>
      rw [List.map_cons, List.find?_cons_of_neg _ (by rw [hp x, hpx]; exact Bool.false_ne_true),
        List.find?_cons_of_neg _ (by rw [hpx]; exact Bool.false_ne_true), ih]

/-- C1 is false on the code: the replay check of `verifyAndCreateSubscription`
only scans its own ledger, so the signature "SIGX", already attached to the
completed credit-purchase intent `txA`, is accepted for the pending
subscription intent "b" instead of failing with `ReplayDetected`. -/
theorem crossLedgerReplay_counterexample :
    (db0.solana_transactions.find?
      (fun r => r.transaction_signature == "SIGX" && r.id != "b")).isSome = true ∧
    (verifyAndCreateSubscription cfg0 chainOk .fail 5 "sub1" "rev1" db0 "b" "SIGX" "u2").1 =
      .ok "sub1" := by
  refine ⟨rfl, ?_⟩
  norm_num [verifyAndCreateSubscription, db0, cfg0, chainOk, txA, txP, subB, pollLoop, maxRetries,
    getSolUsdPrice, jsRound, lamportsPerSol, thirtyDaysMs, finalizeSubscriptionIntent,
    endOpenSubscriptions, insertSubscription, insertRevenueEvent, addCredits, endsAfter,
    List.find?]
  decide

/-- C1 amended: the consumed-signature check is per ledger, not system-wide.
Within its own ledger each verify function rejects a signature that is already
attached to a different intent, failing with `ReplayDetected` and leaving the
state unchanged; the check does not span the other ledger. -/
theorem replay_rejected_within_ledger :
    (∀ (cfg : Config) (chain : Chain) (fetch : FetchOutcome) (now : Nat) (rid : String)
      (db : Db) (pid sig uid : String) (pending : TxRow),
      (cfg.treasuryWallet == "") = false →
      db.solana_transactions.find? (fun r => r.id == pid && r.user_id == uid) = some pending →
      (pending.status == "completed") = false →
      (db.solana_transactions.find?
        (fun r => r.transaction_signature == sig && r.id != pid)).isSome = true →
      verifyAndCreditTransaction cfg chain fetch now rid db pid sig uid =
        (.err .replayDetected, db)) ∧
    (∀ (cfg : Config) (chain : Chain) (fetch : FetchOutcome) (now : Nat) (sid rid : String)
      (db : Db) (pid sig uid : String) (pending : SubTxRow),
      (cfg.treasuryWallet == "") = false →
      db.solana_subscription_transactions.find?
        (fun r => r.id == pid && r.user_id == uid) = some pending →
      (pending.status == "completed") = false →
      (db.solana_subscription_transactions.find?
        (fun r => r.transaction_signature == sig && r.id != pid)).isSome = true →
      verifyAndCreateSubscription cfg chain fetch now sid rid db pid sig uid =
        (.err .replayDetected, db)) := by
  constructor
  · intro cfg chain fetch now rid db pid sig uid pending hc hfind hst hdup
    obtain ⟨r, hr⟩ := Option.isSome_iff_exists.mp hdup
    unfold verifyAndCreditTransaction
    simp [hc, hfind, hst, hr]
  · intro cfg chain fetch now sid rid db pid sig uid pending hc hfind hst hdup
    obtain ⟨r, hr⟩ := Option.isSome_iff_exists.mp hdup
    unfold verifyAndCreateSubscription
    simp [hc, hfind, hst, hr]

/-- Witness for amended C1: within the credit ledger, redeeming "SIGX" (already
attached to `txA`) for the distinct pending intent `txP` is rejected. -/
theorem replay_rejected_within_ledger_witness :
    verifyAndCreditTransaction cfg0 chainOk .fail 0 "r" db0 "p" "SIGX" "u1" =
      (.err .replayDetected, db0) :=
  replay_rejected_within_ledger.1 cfg0 chainOk .fail 0 "r" db0 "p" "SIGX" "u1" txP
    rfl rfl rfl rfl

/-- C2 is false on the code: the finalize write is not guarded by the row's
current status.  Applied to the intent "a", whose row `txA` is already
'completed', it still overwrites the row's signature. -/
theorem finalize_unconditional_counterexample :
    txA ∈ db0.solana_transactions ∧ txA.status = "completed" ∧
    ((finalizeCreditIntent db0 "a" "SIG2" 99).solana_transactions.map
        fun r => r.transaction_signature) ≠
      (db0.solana_transactions.map fun r => r.transaction_signature) := by
  refine ⟨by simp [db0], rfl, by decide⟩

/-- C2 amended: both finalize writes are conditioned only on the intent id
(`WHERE id = ?`), not on status: they rewrite every row whose id matches —
whatever its current status — and leave every other row unchanged.  (At-most-once
crediting is instead enforced by the status pre-check at the start of each
verify call.) -/
theorem finalize_keyed_by_id_only :
    (∀ (db : Db) (pid sig : String) (now : Nat) (r : TxRow),
      r ∈ db.solana_transactions →
      (r.id ≠ pid → r ∈ (finalizeCreditIntent db pid sig now).solana_transactions) ∧
      (r.id = pid →
        { r with
            transaction_signature := sig
            status := "completed"
            verified_at := some now } ∈
          (finalizeCreditIntent db pid sig now).solana_transactions)) ∧
    (∀ (db : Db) (pid sig sid : String) (now : Nat) (r : SubTxRow),
      r ∈ db.solana_subscription_transactions →
      (r.id ≠ pid →
        r ∈ (finalizeSubscriptionIntent db pid sig sid now).solana_subscription_transactions) ∧
      (r.id = pid →
        { r with
            transaction_signature := sig
            status := "completed"
            verified_at := some now
            subscription_id := some sid } ∈
          (finalizeSubscriptionIntent db pid sig sid now).solana_subscription_transactions)) := by
  constructor
  · intro db pid sig now r hr
    exact ⟨fun hne => List.mem_map.mpr ⟨r, hr, by simp [finalizeCreditIntent, hne]⟩,
      fun heq => List.mem_map.mpr ⟨r, hr, by simp [finalizeCreditIntent, heq]⟩⟩
  · intro db pid sig sid now r hr
    exact ⟨fun hne => List.mem_map.mpr ⟨r, hr, by simp [finalizeSubscriptionIntent, hne]⟩,
      fun heq => List.mem_map.mpr ⟨r, hr, by simp [finalizeSubscriptionIntent, heq]⟩⟩

/-- Witness for amended C2: finalizing intent "a" rewrites the already-completed
row `txA`. -/
theorem finalize_keyed_by_id_only_witness :
    { txA with
        transaction_signature := "SIG2"
        status := "completed"
        verified_at := some (99 : Nat) } ∈
      (finalizeCreditIntent db0 "a" "SIG2" 99).solana_transactions :=
  (finalize_keyed_by_id_only.1 db0 "a" "SIG2" 99 txA (by simp [db0])).2 rfl

/-- C3: sequential idempotence of verify.  Once a verify call for a paymentId
has succeeded (so the intent's status is 'completed'), any subsequent verify
call for the same paymentId and user — with any signature, chain behaviour,
fetch outcome or time — fails with `AlreadyProcessed` and performs no state
change, for both the credit-purchase and the subscription-purchase flow. -/
theorem second_verify_already_processed :
    (∀ (cfg : Config) (chain chain2 : Chain) (fetch fetch2 : FetchOutcome) (now now2 : Nat)
      (rid rid2 : String) (db db' : Db) (pid sig sig2 uid : String) (c : Int),
      verifyAndCreditTransaction cfg chain fetch now rid db pid sig uid = (.ok c, db') →
      verifyAndCreditTransaction cfg chain2 fetch2 now2 rid2 db' pid sig2 uid =
        (.err .alreadyProcessed, db')) ∧
    (∀ (cfg : Config) (chain chain2 : Chain) (fetch fetch2 : FetchOutcome) (now now2 : Nat)
      (sid sid2 rid rid2 : String) (db db' : Db) (pid sig sig2 uid : String) (s : String),
      verifyAndCreateSubscription cfg chain fetch now sid rid db pid sig uid = (.ok s, db') →
      verifyAndCreateSubscription cfg chain2 fetch2 now2 sid2 rid2 db' pid sig2 uid =
        (.err .alreadyProcessed, db')) := by
  constructor
  · intro cfg chain chain2 fetch fetch2 now now2 rid rid2 db db' pid sig sig2 uid c h
    cases hc : (cfg.treasuryWallet == "") with
    | true =>
      rw [creditTx_not_configured cfg chain fetch now rid db pid sig uid hc] at h
      simp at h
    | false =>
      cases hfind : db.solana_transactions.find? (fun r => r.id == pid && r.user_id == uid) with
      | none =>
        rw [creditTx_not_found cfg chain fetch now rid db pid sig uid hc hfind] at h
        simp at h
      | some pending =>
        cases hst : (pending.status == "completed") with
        | true =>
          rw [creditTx_already_processed cfg chain fetch now rid db pid sig uid pending
            hc hfind hst] at h
          simp at h
        | false =>
          rcases creditTx_ok_shape cfg chain fetch now rid db pid sig uid pending hc hfind hst
            with ⟨e, he⟩ | ⟨h1, h2⟩
          · rw [he] at h; simp at h
          · rw [h] at h2
            have hpid : (pending.id == pid) = true := by
              have hp := List.find?_some hfind
              simp only [Bool.and_eq_true] at hp
              exact hp.1
            have hfind' : db'.solana_transactions.find?
                (fun r => r.id == pid && r.user_id == uid) =
                some { pending with
                        transaction_signature := sig
                        status := "completed"
                        verified_at := some now } := by
              have hcomm : ∀ x : TxRow,
                  ((fun r => r.id == pid && r.user_id == uid)
                    (if x.id == pid then
                      { x with
                          transaction_signature := sig
                          status := "completed"
                          verified_at := some now }
                    else x)) =
                    ((fun r => r.id == pid && r.user_id == uid) x) := by
                intro x
                by_cases hx : (x.id == pid) = true <;> simp [hx]
              calc db'.solana_transactions.find? (fun r => r.id == pid && r.user_id == uid)
                  = ((db.solana_transactions.map fun x =>
                      if x.id == pid then
                        { x with
                            transaction_signature := sig
                            status := "completed"
                            verified_at := some now }
                      else x).find? fun r => r.id == pid && r.user_id == uid) := by
                    rw [h2]; rfl
                _ = some { pending with
                            transaction_signature := sig
                            status := "completed"
                            verified_at := some now } := by
                    rw [find?_map_of_pred_comm _ _ hcomm, hfind, Option.map_some']
                    simp [hpid]
            exact creditTx_already_processed cfg chain2 fetch2 now2 rid2 db' pid sig2 uid _
              hc hfind' rfl
  · intro cfg chain chain2 fetch fetch2 now now2 sid sid2 rid rid2 db db' pid sig sig2 uid s h
    cases hc : (cfg.treasuryWallet == "") with
    | true =>
      rw [subTx_not_configured cfg chain fetch now sid rid db pid sig uid hc] at h
      simp at h
    | false =>
      cases hfind : db.solana_subscription_transactions.find?
          (fun r => r.id == pid && r.user_id == uid) with
      | none =>
        rw [subTx_not_found cfg chain fetch now sid rid db pid sig uid hc hfind] at h
        simp at h
      | some pending =>
        cases hst : (pending.status == "completed") with
        | true =>
          rw [subTx_already_processed cfg chain fetch now sid rid db pid sig uid pending
            hc hfind hst] at h
          simp at h
        | false =>
          rcases subTx_ok_shape cfg chain fetch now sid rid db pid sig uid pending hc hfind hst
            with ⟨e, he⟩ | ⟨h1, h2, h3⟩
          · rw [he] at h; simp at h
          · rw [h] at h2
            have hpid : (pending.id == pid) = true := by
              have hp := List.find?_some hfind
              simp only [Bool.and_eq_true] at hp
              exact hp.1
            have hfind' : db'.solana_subscription_transactions.find?
                (fun r => r.id == pid && r.user_id == uid) =
                some { pending with
                        transaction_signature := sig
                        status := "completed"
                        verified_at := some now
                        subscription_id := some sid } := by
              have hcomm : ∀ x : SubTxRow,
                  ((fun r => r.id == pid && r.user_id == uid)
                    (if x.id == pid then
                      { x with
                          transaction_signature := sig
                          status := "completed"
                          verified_at := some now
                          subscription_id := some sid }
                    else x)) =
                    ((fun r => r.id == pid && r.user_id == uid) x) := by
                intro x
                by_cases hx : (x.id == pid) = true <;> simp [hx]
              calc db'.solana_subscription_transactions.find?
                    (fun r => r.id == pid && r.user_id == uid)
                  = ((db.solana_subscription_transactions.map fun x =>
                      if x.id == pid then
                        { x with
                            transaction_signature := sig
                            status := "completed"
                            verified_at := some now
                            subscription_id := some sid }
                      else x).find? fun r => r.id == pid && r.user_id == uid) := by
                    rw [h2]; rfl
                _ = some { pending with
                            transaction_signature := sig
                            status := "completed"
                            verified_at := some now
                            subscription_id := some sid } := by
                    rw [find?_map_of_pred_comm _ _ hcomm, hfind, Option.map_some']
                    simp [hpid]
            exact subTx_already_processed cfg chain2 fetch2 now2 sid2 rid2 db' pid sig2 uid _
              hc hfind' rfl

/-- Witness for C3: a successful credit verify followed by a replayed call. -/
theorem second_verify_already_processed_witness :
    verifyAndCreditTransaction cfg0 chainOk .fail 7 "rev2"
        (verifyAndCreditTransaction cfg0 chainOk .fail 7 "rev1" db0 "p" "SIGY" "u1").2
        "p" "SIGY2" "u1" =
      (.err .alreadyProcessed,
        (verifyAndCreditTransaction cfg0 chainOk .fail 7 "rev1" db0 "p" "SIGY" "u1").2) :=
  second_verify_already_processed.1 cfg0 chainOk chainOk .fail .fail 7 7 "rev1" "rev2" db0 _
    "p" "SIGY" "SIGY2" "u1" 50
    (Prod.ext (by
      simp [verifyAndCreditTransaction, db0, cfg0, chainOk, txA, txP, subB, pollLoop, maxRetries,
        getSolUsdPrice, jsRound, lamportsPerSol, finalizeCreditIntent, insertRevenueEvent,
        addCredits, List.find?]
      norm_num) rfl)

/-- An RPC oracle that yields a finalized transaction paying 989999 lamports,
just below the 990000-lamport tolerance floor for an expected 1000000. -/
def chainLow : Chain :=
  { getSignatureStatus := fun _ => .ok ⟨false⟩
    getTransactionConfirmed := fun _ => .ok (some ⟨false, ["TREAS"], [0], [989999]⟩)
    getTransactionFinalized := fun _ => .ok (some ⟨false, ["TREAS"], [0], [989999]⟩) }

/-- An RPC oracle that yields a finalized transaction paying exactly the
tolerance boundary of 990000 lamports for an expected 1000000. -/
def chainEdge : Chain :=
  { getSignatureStatus := fun _ => .ok ⟨false⟩
    getTransactionConfirmed := fun _ => .ok (some ⟨false, ["TREAS"], [0], [990000]⟩)
    getTransactionFinalized := fun _ => .ok (some ⟨false, ["TREAS"], [0], [990000]⟩) }

/-- C4: with a finalized, error-free transaction record containing the treasury
account, verification fails with `AmountMismatch` exactly when
`received < expected - max(expected * 0.01, 1000)`, and the amount check passes
(the call succeeds) for every received amount at or above that bound — for both
the credit-purchase and the subscription-purchase flow. -/
theorem amount_tolerance_boundary :
    (∀ (cfg : Config) (chain : Chain) (fetch : FetchOutcome) (now : Nat) (rid : String)
      (db : Db) (pid sig uid : String) (pending : TxRow) (tx : ChainTx) (ti : Nat),
      (cfg.treasuryWallet == "") = false →
      db.solana_transactions.find? (fun r => r.id == pid && r.user_id == uid) = some pending →
      (pending.status == "completed") = false →
      db.solana_transactions.find?
        (fun r => r.transaction_signature == sig && r.id != pid) = none →
      pollLoop chain 0 maxRetries = .done (some tx) →
      tx.err = false →
      tx.accountKeys.findIdx? (fun k => k == cfg.treasuryWallet) = some ti →
      ((((tx.postBalances.getD ti 0 - tx.preBalances.getD ti 0 : Int) : Rat) <
          (pending.amount_lamports : Rat) -
            max ((pending.amount_lamports : Rat) * (1 / 100)) 1000 →
        verifyAndCreditTransaction cfg chain fetch now rid db pid sig uid =
          (.err .amountMismatch, db)) ∧
      (¬(((tx.postBalances.getD ti 0 - tx.preBalances.getD ti 0 : Int) : Rat) <
          (pending.amount_lamports : Rat) -
            max ((pending.amount_lamports : Rat) * (1 / 100)) 1000) →
        (verifyAndCreditTransaction cfg chain fetch now rid db pid sig uid).1 =
          .ok pending.credits_purchased))) ∧
    (∀ (cfg : Config) (chain : Chain) (fetch : FetchOutcome) (now : Nat) (sid rid : String)
      (db : Db) (pid sig uid : String) (pending : SubTxRow) (tx : ChainTx) (ti : Nat),
      (cfg.treasuryWallet == "") = false →
      db.solana_subscription_transactions.find?
        (fun r => r.id == pid && r.user_id == uid) = some pending →
      (pending.status == "completed") = false →
      db.solana_subscription_transactions.find?
        (fun r => r.transaction_signature == sig && r.id != pid) = none →
      pollLoop chain 0 maxRetries = .done (some tx) →
      tx.err = false →
      tx.accountKeys.findIdx? (fun k => k == cfg.treasuryWallet) = some ti →
      ((((tx.postBalances.getD ti 0 - tx.preBalances.getD ti 0 : Int) : Rat) <
          (pending.amount_lamports : Rat) -
            max ((pending.amount_lamports : Rat) * (1 / 100)) 1000 →
        verifyAndCreateSubscription cfg chain fetch now sid rid db pid sig uid =
          (.err .amountMismatch, db)) ∧
      (¬(((tx.postBalances.getD ti 0 - tx.preBalances.getD ti 0 : Int) : Rat) <
          (pending.amount_lamports : Rat) -
            max ((pending.amount_lamports : Rat) * (1 / 100)) 1000) →
        (verifyAndCreateSubscription cfg chain fetch now sid rid db pid sig uid).1 =
          .ok sid))) := by
  constructor
  · intro cfg chain fetch now rid db pid sig uid pending tx ti hc hfind hst hrep hpoll herr hidx
    unfold verifyAndCreditTransaction
    simp only [hc, hfind, hst, hrep, hpoll, herr, hidx]
    try dsimp only
    constructor
    · intro hlt
      rw [if_pos hlt]
      simp
    · intro hge
      rw [if_neg hge]
      simp
  · intro cfg chain fetch now sid rid db pid sig uid pending tx ti hc hfind hst hrep hpoll
      herr hidx
    unfold verifyAndCreateSubscription
    simp only [hc, hfind, hst, hrep, hpoll, herr, hidx]
    try dsimp only
    constructor
    · intro hlt
      rw [if_pos hlt]
      simp
    · intro hge
      rw [if_neg hge]
      simp

/-- Witness for C4 at the concrete boundary: expected 1000000 lamports gives a
tolerance of 10000, so 989999 fails with `AmountMismatch` and exactly 990000
passes. -/
theorem amount_tolerance_boundary_witness :
    verifyAndCreditTransaction cfg0 chainLow .fail 7 "rev1" db0 "p" "SIGY" "u1" =
      (.err .amountMismatch, db0) ∧
    (verifyAndCreditTransaction cfg0 chainEdge .fail 7 "rev1" db0 "p" "SIGY" "u1").1 =
      .ok 50 :=
  ⟨(amount_tolerance_boundary.1 cfg0 chainLow .fail 7 "rev1" db0 "p" "SIGY" "u1" txP
      ⟨false, ["TREAS"], [0], [989999]⟩ 0 rfl rfl rfl rfl rfl rfl rfl).1 (by norm_num [txP]),
    (amount_tolerance_boundary.1 cfg0 chainEdge .fail 7 "rev1" db0 "p" "SIGY" "u1" txP
      ⟨false, ["TREAS"], [0], [990000]⟩ 0 rfl rfl rfl rfl rfl rfl rfl).2 (by norm_num [txP])⟩

/-- A pre-existing open subscription of user "u2" (no end date). -/
def oldSub : SubscriptionRow := ⟨"old1", "u2", "prodX", 0, none, "active", 0, 0⟩

/-- A database with a pending subscription intent for "u2" and an open
subscription to be displaced. -/
def dbSub : Db := ⟨[], [subB], [oldSub], [⟨"prod1", 0⟩], [], []⟩

/-- C6: when a subscription-purchase intent completes successfully, every
previously open subscription of the user is closed at the current time, exactly
one new subscription row is inserted with `endsAt = startsAt + 30 days`, and
afterwards every other subscription row of the user ends at or before `now` — so
subscriptions are non-overlapping per user. -/
theorem subscription_completion_closes_and_opens :
    ∀ (cfg : Config) (chain : Chain) (fetch : FetchOutcome) (now : Nat) (sid rid : String)
      (db db' : Db) (pid sig uid s : String),
      verifyAndCreateSubscription cfg chain fetch now sid rid db pid sig uid = (.ok s, db') →
      (∀ r ∈ db.user_subscriptions,
        (r.user_id == uid && endsAfter r.ends_at now) = true →
        { r with ends_at := some now } ∈ db'.user_subscriptions) ∧
      (∃ productId,
        (⟨s, uid, productId, now, some (now + thirtyDaysMs), "active", now,
          now + thirtyDaysMs⟩ : SubscriptionRow) ∈ db'.user_subscriptions) ∧
      db'.user_subscriptions.length = db.user_subscriptions.length + 1 ∧
      (∀ r ∈ db'.user_subscriptions, r.user_id = uid → r.id ≠ s →
        ∃ t, r.ends_at = some t ∧ t ≤ now) := by
  intro cfg chain fetch now sid rid db db' pid sig uid s h
  cases hc : (cfg.treasuryWallet == "") with
  | true =>
    rw [subTx_not_configured cfg chain fetch now sid rid db pid sig uid hc] at h
    simp at h
  | false =>
    cases hfind : db.solana_subscription_transactions.find?
        (fun r => r.id == pid && r.user_id == uid) with
    | none =>
      rw [subTx_not_found cfg chain fetch now sid rid db pid sig uid hc hfind] at h
      simp at h
    | some pending =>
      cases hst : (pending.status == "completed") with
      | true =>
        rw [subTx_already_processed cfg chain fetch now sid rid db pid sig uid pending
          hc hfind hst] at h
        simp at h
      | false =>
        rcases subTx_ok_shape cfg chain fetch now sid rid db pid sig uid pending hc hfind hst
          with ⟨e, he⟩ | ⟨h1, _, h3⟩
        · rw [he] at h; simp at h
        · have hfst : (verifyAndCreateSubscription cfg chain fetch now sid rid db pid sig
              uid).1 = .ok s := congrArg Prod.fst h
          rw [h1] at hfst
          have hs : sid = s := (VerifyOutcome.ok.injEq _ _).mp hfst
          subst hs
          have hsnd : (verifyAndCreateSubscription cfg chain fetch now sid rid db pid sig
              uid).2 = db' := congrArg Prod.snd h
          rw [hsnd] at h3
          refine ⟨?_, ?_, ?_, ?_⟩
          · intro r hr hopen
            rw [h3, endOpenSubscriptions]
            exact List.mem_append_left _
              (List.mem_map.mpr ⟨r, hr, by simp only [hopen, if_true]⟩)
          · exact ⟨pending.product_id, by
              rw [h3]
              exact List.mem_append_right _ (by simp)⟩
          · rw [h3, endOpenSubscriptions]
            simp
          · intro r hr hruid hrid
            rw [h3] at hr
            rcases List.mem_append.mp hr with hl | hnew
            · rw [endOpenSubscriptions] at hl
              obtain ⟨x, hx, hgx⟩ := List.mem_map.mp hl
              by_cases hcond : (x.user_id == uid && endsAfter x.ends_at now) = true
              · rw [if_pos hcond] at hgx
                exact ⟨now, by rw [← hgx], le_refl now⟩
              · rw [if_neg hcond] at hgx
                subst hgx
                have huid : (x.user_id == uid) = true := by simp [hruid]
                have hopen : endsAfter x.ends_at now = false := by
                  cases hend : endsAfter x.ends_at now with
                  | false => rfl
                  | true => exact absurd (by rw [huid, hend]; rfl) hcond
                cases hends : x.ends_at with
                | none => rw [hends] at hopen; rw [endsAfter.eq_def] at hopen; cases hopen
                | some t =>
                  refine ⟨t, rfl, ?_⟩
                  rw [hends] at hopen
                  rw [endsAfter.eq_def] at hopen
                  simpa using hopen
            · simp only [List.mem_singleton] at hnew
              exact absurd (congrArg SubscriptionRow.id hnew) hrid

/-- Witness for C6: completing subscription intent "b" closes the open
subscription `oldSub` at `now = 5` and grows the subscription table by one. -/
theorem subscription_completion_closes_and_opens_witness :
    { oldSub with ends_at := some (5 : Nat) } ∈
      (verifyAndCreateSubscription cfg0 chainOk .fail 5 "sub1" "rev1" dbSub "b" "SIGX"
        "u2").2.user_subscriptions ∧
    (verifyAndCreateSubscription cfg0 chainOk .fail 5 "sub1" "rev1" dbSub "b" "SIGX"
        "u2").2.user_subscriptions.length = dbSub.user_subscriptions.length + 1 := by
  have h := subscription_completion_closes_and_opens cfg0 chainOk .fail 5 "sub1" "rev1" dbSub
    ((verifyAndCreateSubscription cfg0 chainOk .fail 5 "sub1" "rev1" dbSub "b" "SIGX" "u2").2)
    "b" "SIGX" "u2" "sub1"
    (Prod.ext (by
      simp [verifyAndCreateSubscription, dbSub, cfg0, chainOk, subB, oldSub, pollLoop,
        maxRetries, getSolUsdPrice, jsRound, lamportsPerSol, thirtyDaysMs,
        finalizeSubscriptionIntent, endOpenSubscriptions, insertSubscription,
        insertRevenueEvent, addCredits, endsAfter, List.find?]
      norm_num) rfl)
  exact ⟨h.1 oldSub (by simp [dbSub]) (by decide), h.2.2.1⟩

/-- C7: intent lookup is scoped by both paymentId and owning userId.  If every
intent with this id (in either ledger) belongs to `ownerId`, a verify call by
any other user fails with `NotFound` — exactly as if the intent did not exist —
and changes nothing. -/
theorem foreign_intent_not_found :
    ∀ (cfg : Config) (chain : Chain) (fetch : FetchOutcome) (now : Nat) (sid rid : String)
      (db : Db) (pid sig ownerId otherId : String),
      (cfg.treasuryWallet == "") = false →
      otherId ≠ ownerId →
      (∀ r ∈ db.solana_transactions, r.id = pid → r.user_id = ownerId) →
      (∀ r ∈ db.solana_subscription_transactions, r.id = pid → r.user_id = ownerId) →
      verifyAndCreditTransaction cfg chain fetch now rid db pid sig otherId =
        (.err .notFound, db) ∧
      verifyAndCreateSubscription cfg chain fetch now sid rid db pid sig otherId =
        (.err .notFound, db) := by
  intro cfg chain fetch now sid rid db pid sig ownerId otherId hc hne hown hownSub
  have hf1 : db.solana_transactions.find?
      (fun r => r.id == pid && r.user_id == otherId) = none := by
    rw [List.find?_eq_none]
    intro r hr
    simp only [Bool.and_eq_true, beq_iff_eq, not_and]
    intro hid huid
    exact hne (huid ▸ hown r hr hid)
  have hf2 : db.solana_subscription_transactions.find?
      (fun r => r.id == pid && r.user_id == otherId) = none := by
    rw [List.find?_eq_none]
    intro r hr
    simp only [Bool.and_eq_true, beq_iff_eq, not_and]
    intro hid huid
    exact hne (huid ▸ hownSub r hr hid)
  exact ⟨creditTx_not_found cfg chain fetch now rid db pid sig otherId hc hf1,
    subTx_not_found cfg chain fetch now sid rid db pid sig otherId hc hf2⟩

/-- Witness for C7: user "u9" cannot verify intent "a", which user "u1" owns. -/
theorem foreign_intent_not_found_witness :
    verifyAndCreditTransaction cfg0 chainOk .fail 0 "r" db0 "a" "SIGX" "u9" =
      (.err .notFound, db0) ∧
    verifyAndCreateSubscription cfg0 chainOk .fail 0 "s" "r" db0 "a" "SIGX" "u9" =
      (.err .notFound, db0) :=
  foreign_intent_not_found cfg0 chainOk .fail 0 "s" "r" db0 "a" "SIGX" "u1" "u9"
    rfl (by decide) (by decide) (by decide)

/-- The polling loop aborts with `chainFailure` as soon as an iteration's status
check reports an on-chain error, regardless of the oracle's behaviour at any
later attempt. -/
theorem pollLoop_chainFailure_of_err (chain : Chain) :
    ∀ (remaining a k : Nat), a ≤ k → k < a + remaining →
      (∀ j, a ≤ j → j < k → chain.getSignatureStatus j = .ok ⟨false⟩ ∧
        chain.getTransactionConfirmed j = .ok none) →
      chain.getSignatureStatus k = .ok ⟨true⟩ →
      pollLoop chain a remaining = .chainFailure := by
  intro remaining
  induction remaining with
  | zero => intro a k hak hlt _ _; omega
  | succ r ih =>
    intro a k hak hlt hbefore herr
    rcases Nat.eq_or_lt_of_le hak with heq | hlt2
    · subst heq
      rw [pollLoop.eq_def]
      rw [herr]
      simp
    · have hj := hbefore a (le_refl a) hlt2
      have hr0 : r ≠ 0 := by omega
      rw [pollLoop.eq_def]
      rw [hj.1, hj.2]
      simp only [hr0, if_false]
      exact ih (a + 1) k hlt2 (by omega)
        (fun j hj1 hj2 => hbefore j (by omega) hj2) herr

/-- An RPC oracle whose very first status check reports an on-chain error. -/
def chainErr : Chain :=
  { getSignatureStatus := fun _ => .ok ⟨true⟩
    getTransactionConfirmed := fun _ => .ok none
    getTransactionFinalized := fun _ => .ok none }

/-- C8: if the lightweight status check reports an on-chain error status at some
iteration `k` that the loop reaches (all earlier iterations saw no error and no
transaction yet), the loop ends with `chainFailure` right there — the result
does not depend on the oracle's behaviour at any attempt after `k` — and the
verify call returns `OnChainFailure` with no state change. -/
theorem onchain_error_aborts_polling :
    ∀ (chain : Chain) (k : Nat),
      k < maxRetries →
      (∀ j, j < k → chain.getSignatureStatus j = .ok ⟨false⟩ ∧
        chain.getTransactionConfirmed j = .ok none) →
      chain.getSignatureStatus k = .ok ⟨true⟩ →
      pollLoop chain 0 maxRetries = .chainFailure ∧
      (∀ (cfg : Config) (fetch : FetchOutcome) (now : Nat) (rid : String) (db : Db)
        (pid sig uid : String) (pending : TxRow),
        (cfg.treasuryWallet == "") = false →
        db.solana_transactions.find? (fun r => r.id == pid && r.user_id == uid) =
          some pending →
        (pending.status == "completed") = false →
        db.solana_transactions.find?
          (fun r => r.transaction_signature == sig && r.id != pid) = none →
        verifyAndCreditTransaction cfg chain fetch now rid db pid sig uid =
          (.err .onChainFailure, db)) ∧
      (∀ (cfg : Config) (fetch : FetchOutcome) (now : Nat) (sid rid : String) (db : Db)
        (pid sig uid : String) (pending : SubTxRow),
        (cfg.treasuryWallet == "") = false →
        db.solana_subscription_transactions.find?
          (fun r => r.id == pid && r.user_id == uid) = some pending →
        (pending.status == "completed") = false →
        db.solana_subscription_transactions.find?
          (fun r => r.transaction_signature == sig && r.id != pid) = none →
        verifyAndCreateSubscription cfg chain fetch now sid rid db pid sig uid =
          (.err .onChainFailure, db)) := by
  intro chain k hk hbefore herr
  have hpoll : pollLoop chain 0 maxRetries = .chainFailure :=
    pollLoop_chainFailure_of_err chain maxRetries 0 k (Nat.zero_le k) (by omega)
      (fun j _ hj => hbefore j hj) herr
  refine ⟨hpoll, ?_, ?_⟩
  · intro cfg fetch now rid db pid sig uid pending hc hfind hst hrep
    unfold verifyAndCreditTransaction
    simp [hc, hfind, hst, hrep, hpoll]
  · intro cfg fetch now sid rid db pid sig uid pending hc hfind hst hrep
    unfold verifyAndCreateSubscription
    simp [hc, hfind, hst, hrep, hpoll]

/-- Witness for C8 at `k = 0`: an immediate on-chain error status makes both the
loop and the verify call fail at once. -/
theorem onchain_error_aborts_polling_witness :
    pollLoop chainErr 0 maxRetries = .chainFailure ∧
    verifyAndCreditTransaction cfg0 chainErr .fail 0 "r" db0 "p" "SIGZ" "u1" =
      (.err .onChainFailure, db0) := by
  have h := onchain_error_aborts_polling chainErr 0 (by decide)
    (fun j hj => absurd hj (Nat.not_lt_zero j)) rfl
  exact ⟨h.1, h.2.1 cfg0 .fail 0 "r" db0 "p" "SIGZ" "u1" txP rfl rfl rfl rfl⟩

/-- C10: the transaction history returns only the requesting user's completed
transactions — never pending intents — ordered most recent first by creation
time, and at most 20 entries with the default limit used by the route. -/
theorem transaction_history_completed_only :
    ∀ (db : Db) (uid : String),
      (∀ tx ∈ getUserTransactions db uid defaultTransactionLimit,
        tx.user_id = uid ∧ tx.status = "completed") ∧
      (getUserTransactions db uid defaultTransactionLimit).length ≤ 20 ∧
      (getUserTransactions db uid defaultTransactionLimit).Pairwise
        (fun a b => b.created_at ≤ a.created_at) := by
  intro db uid
  refine ⟨?_, ?_, ?_⟩
  · intro tx htx
    unfold getUserTransactions at htx
    have hmem := List.mem_of_mem_take htx
    rw [List.mem_mergeSort] at hmem
    have := List.mem_filter.mp hmem
    simpa using this.2
  · unfold getUserTransactions
    exact le_trans (List.length_take_le _ _) (le_refl _)
  · unfold getUserTransactions
    have hsorted : ((db.solana_transactions.filter
        fun r => r.user_id == uid && r.status == "completed").mergeSort
          fun a b => b.created_at ≤ a.created_at).Pairwise
        (fun a b => (decide (b.created_at ≤ a.created_at)) = true) :=
      List.sorted_mergeSort
        (fun a b c h1 h2 => by
          simp only [decide_eq_true_eq] at *
          omega)
        (fun a b => by
          simp only [Bool.or_eq_true, decide_eq_true_eq]
          omega)
        (db.solana_transactions.filter fun r => r.user_id == uid && r.status == "completed")
    have hp := List.Pairwise.sublist (List.take_sublist defaultTransactionLimit _) hsorted
    exact hp.imp fun h => by simpa using h

unseal List.merge List.mergeSort in
/-- Witness for C10: user "u1" sees the completed transaction `txA` (and its
fields satisfy the history guarantees), while the pending `txP` is filtered out. -/
theorem transaction_history_completed_only_witness :
    txA.user_id = "u1" ∧ txA.status = "completed" :=
  (transaction_history_completed_only db0 "u1").1 txA (by
    have h : getUserTransactions db0 "u1" defaultTransactionLimit = [txA] := rfl
    rw [h]
    exact List.mem_singleton_self txA)

end Solana
